import Mathlib

/-!
Verification of the conference grid backend (`src/app.py`, `src/models.py`).

The backend is a small Flask service storing one 2D grid of text cells per
page name in a `page_data` table (`page_name` unique, `data` a JSONB column).
We embed the two request handlers shallowly:

* JSON values decoded by `request.get_json` are modelled by the inductive
  `Json`; Python truthiness, the `in` operator and string subscripting are
  modelled by `pyTruthy`, `pyContains` and `pySubscriptStr`, matching
  Python semantics on each JSON shape.
* The `page_data` table is a list of records (`Store`); the SQLAlchemy
  query/update/add/commit sequence of `save_data` becomes `upsert`, with a
  `DbOutcome` parameter injecting the commit-time outcome (success,
  `IntegrityError`, or any other exception with its message).
* Each handler returns the resulting store paired with an HTTP response,
  so absence of writes is visible in the statements.
-/

namespace ConferenceGrid

/-- JSON values as decoded by `request.get_json` / produced by `jsonify`. -/
inductive Json where
  | null
  | bool (b : Bool)
  | num (n : Int)
  | str (s : String)
  | arr (elems : List Json)
  | obj (fields : List (String × Json))

mutual

/-- Structural equality of JSON values. -/
def Json.beq : Json → Json → Bool
  | .null, .null => true
  | .bool a, .bool b => a == b
  | .num a, .num b => a == b
  | .str a, .str b => a == b
  | .arr xs, .arr ys => Json.beqList xs ys
  | .obj xs, .obj ys => Json.beqObj xs ys
  | _, _ => false
termination_by structural a => a

/-- Structural equality of JSON array contents. -/
def Json.beqList : List Json → List Json → Bool
  | [], [] => true
  | x :: xs, y :: ys => Json.beq x y && Json.beqList xs ys
  | _, _ => false
termination_by structural a => a

/-- Structural equality of JSON object contents. -/
def Json.beqObj : List (String × Json) → List (String × Json) → Bool
  | [], [] => true
  | (k1, v1) :: xs, (k2, v2) :: ys => k1 == k2 && Json.beq v1 v2 && Json.beqObj xs ys
  | _, _ => false
termination_by structural a => a

end

mutual

theorem Json.eq_of_beq : (a b : Json) → Json.beq a b = true → a = b
  | .null, .null, _ => rfl
  | .bool a, .bool b, h => by simp [Json.beq] at h; rw [h]
  | .num a, .num b, h => by simp [Json.beq] at h; rw [h]
  | .str a, .str b, h => by simp [Json.beq] at h; rw [h]
  | .arr xs, .arr ys, h => congrArg Json.arr (Json.eqList_of_beqList xs ys h)
  | .obj xs, .obj ys, h => congrArg Json.obj (Json.eqObj_of_beqObj xs ys h)
  | .null, .bool _, h => nomatch h
  | .null, .num _, h => nomatch h
  | .null, .str _, h => nomatch h
  | .null, .arr _, h => nomatch h
  | .null, .obj _, h => nomatch h
  | .bool _, .null, h => nomatch h
  | .bool _, .num _, h => nomatch h
  | .bool _, .str _, h => nomatch h
  | .bool _, .arr _, h => nomatch h
  | .bool _, .obj _, h => nomatch h
  | .num _, .null, h => nomatch h
  | .num _, .bool _, h => nomatch h
  | .num _, .str _, h => nomatch h
  | .num _, .arr _, h => nomatch h
  | .num _, .obj _, h => nomatch h
  | .str _, .null, h => nomatch h
  | .str _, .bool _, h => nomatch h
  | .str _, .num _, h => nomatch h
  | .str _, .arr _, h => nomatch h
  | .str _, .obj _, h => nomatch h
  | .arr _, .null, h => nomatch h
  | .arr _, .bool _, h => nomatch h
  | .arr _, .num _, h => nomatch h
  | .arr _, .str _, h => nomatch h
  | .arr _, .obj _, h => nomatch h
  | .obj _, .null, h => nomatch h
  | .obj _, .bool _, h => nomatch h
  | .obj _, .num _, h => nomatch h
  | .obj _, .str _, h => nomatch h
  | .obj _, .arr _, h => nomatch h

theorem Json.eqList_of_beqList : (as bs : List Json) → Json.beqList as bs = true → as = bs
  | [], [], _ => rfl
  | [], _ :: _, h => nomatch h
  | _ :: _, [], h => nomatch h
  | x :: xs, y :: ys, h =>
    have h1 : Json.beq x y = true := by
      have hc := h; simp [Json.beqList] at hc; exact hc.1
    have h2 : Json.beqList xs ys = true := by
      have hc := h; simp [Json.beqList] at hc; exact hc.2
    Json.eq_of_beq x y h1 ▸ Json.eqList_of_beqList xs ys h2 ▸ rfl

theorem Json.eqObj_of_beqObj :
    (as bs : List (String × Json)) → Json.beqObj as bs = true → as = bs
  | [], [], _ => rfl
  | [], _ :: _, h => nomatch h
  | _ :: _, [], h => nomatch h
  | (k1, v1) :: xs, (k2, v2) :: ys, h =>
    have h1 : k1 = k2 := by
      have hc := h; simp [Json.beqObj] at hc; exact hc.1.1
    have h2 : Json.beq v1 v2 = true := by
      have hc := h; simp [Json.beqObj] at hc; exact hc.1.2
    have h3 : Json.beqObj xs ys = true := by
      have hc := h; simp [Json.beqObj] at hc; exact hc.2
    h1 ▸ Json.eq_of_beq v1 v2 h2 ▸ Json.eqObj_of_beqObj xs ys h3 ▸ rfl

end

mutual

theorem Json.beq_refl : (a : Json) → Json.beq a a = true
  | .null => rfl
  | .bool b => by simp [Json.beq]
  | .num n => by simp [Json.beq]
  | .str s => by simp [Json.beq]
  | .arr xs => Json.beqList_refl xs
  | .obj kvs => Json.beqObj_refl kvs

theorem Json.beqList_refl : (as : List Json) → Json.beqList as as = true
  | [] => rfl
  | x :: xs => by simp [Json.beqList, Json.beq_refl x, Json.beqList_refl xs]

theorem Json.beqObj_refl : (as : List (String × Json)) → Json.beqObj as as = true
  | [] => rfl
  | (k, v) :: xs => by simp [Json.beqObj, Json.beq_refl v, Json.beqObj_refl xs]

end

instance : DecidableEq Json := fun a b =>
  if h : Json.beq a b = true then isTrue (Json.eq_of_beq a b h)
  else isFalse fun hh => h (hh ▸ Json.beq_refl a)

/-- Python truthiness of a decoded JSON value (`if not payload`). -/
def pyTruthy : Json → Bool
  | .null => false
  | .bool b => b
  | .num n => !decide (n = 0)
  | .str s => !s.isEmpty
  | .arr xs => !xs.isEmpty
  | .obj kvs => !kvs.isEmpty

/-- Substring test on lists of characters (Python `needle in haystack` for strings). -/
def listContainsSub (needle : List Char) : List Char → Bool
  | [] => needle.isEmpty
  | c :: cs => needle.isPrefixOf (c :: cs) || listContainsSub needle cs

/-- Python `key in payload` for a string `key`: key lookup on dicts, element
membership on lists, substring test on strings, `TypeError` otherwise.
Errors carry `str(e)` of the raised exception. -/
def pyContains (p : Json) (key : String) : Except String Bool :=
  match p with
  | .obj kvs => .ok (kvs.any fun kv => decide (kv.1 = key))
  | .arr xs => .ok (xs.any fun x => decide (x = Json.str key))
  | .str s => .ok (listContainsSub key.toList s.toList)
  | .num _ => .error "argument of type \x27int\x27 is not iterable"
  | .bool _ => .error "argument of type \x27bool\x27 is not iterable"
  | .null => .error "argument of type \x27NoneType\x27 is not iterable"

/-- Python `payload[key]` for a string `key`: lookup on dicts (`KeyError` when
absent), `TypeError` on every other JSON shape. Errors carry `str(e)`. -/
def pySubscriptStr (p : Json) (key : String) : Except String Json :=
  match p with
  | .obj kvs =>
    match kvs.find? (fun kv => decide (kv.1 = key)) with
    | some kv => .ok kv.2
    | none => .error ("\x27" ++ key ++ "\x27")
  | .arr _ => .error "list indices must be integers or slices, not str"
  | .str _ => .error "string indices must be integers"
  | .num _ => .error "\x27int\x27 object is not subscriptable"
  | .bool _ => .error "\x27bool\x27 object is not subscriptable"
  | .null => .error "\x27NoneType\x27 object is not subscriptable"

/-- `isinstance(x, list)`. -/
def Json.isArr : Json → Bool
  | .arr _ => true
  | _ => false

/-- The element list of a JSON array (empty for non-arrays). -/
def Json.elems : Json → List Json
  | .arr xs => xs
  | _ => []

/-- One row of the `page_data` table: `page_name` (unique key) and the JSONB
`data` column. The key is kept as the raw JSON value extracted from the
payload, since `save_data` applies no type check to `payload["page"]`. -/
structure PageRecord where
  page_name : Json
  data : Json
  deriving DecidableEq

/-- The `page_data` table. -/
abbrev Store := List PageRecord

/-- An HTTP response: status code and JSON body. -/
structure Response where
  code : Nat
  body : Json
  deriving DecidableEq

/-- `jsonify({"status": "error", "message": m}), code`. -/
def errResp (code : Nat) (m : String) : Response :=
  ⟨code, Json.obj [("status", Json.str "error"), ("message", Json.str m)]⟩

/-- `jsonify({"status": "success"})`. -/
def okResp : Response :=
  ⟨200, Json.obj [("status", Json.str "success")]⟩

/-- The 400 message for a missing `page`/`data` field. -/
def msgMissing : String := "Missing \x27page\x27 or \x27data\x27 in request body"

/-- `db.session.query(PageData).filter_by(page_name=k).first()`. -/
def findRecord (s : Store) (k : Json) : Option PageRecord :=
  s.find? fun r => decide (r.page_name = k)

/-- `GET /load_data/<page_name>`: return the stored grid when present and
non-empty, else an empty array; never an error, never a write. -/
def load_data (s : Store) (page_name : String) : Store × Response :=
  match findRecord s (Json.str page_name) with
  | some record =>
    if pyTruthy record.data then (s, ⟨200, record.data⟩) else (s, ⟨200, Json.arr []⟩)
  | none => (s, ⟨200, Json.arr []⟩)

/-- Update the first record keyed `k` in place, or append a fresh one:
the query-then-`record.data = new_data` / `db.session.add` sequence of
`save_data`. -/
def upsert (s : Store) (k d : Json) : Store :=
  match s with
  | [] => [⟨k, d⟩]
  | r :: rs => if r.page_name = k then ⟨r.page_name, d⟩ :: rs else r :: upsert rs k d

/-- Outcome of `db.session.commit()`: success, an `IntegrityError`, or any
other exception together with `str(e)`. -/
inductive DbOutcome where
  | ok
  | integrityError
  | otherError (msg : String)

/-- The validation phase of `save_data`, up to but excluding the store write:
either an error pair (status code, message) exactly as the handler produces
it — a 400 from an explicit check, or a 500 from a caught exception — or the
extracted `(payload["page"], payload["data"])`. `none` stands for
`request.get_json(silent=True)` returning `None`. -/
def validatePayload : Option Json → Except (Nat × String) (Json × Json)
  | none => .error (400, msgMissing)
  | some p =>
    if !pyTruthy p then .error (400, msgMissing)
    else
      match pyContains p "page" with
      | .error e => .error (500, "Server error: " ++ e)
      | .ok hasPage =>
        if !hasPage then .error (400, msgMissing)
        else
          match pyContains p "data" with
          | .error e => .error (500, "Server error: " ++ e)
          | .ok hasData =>
            if !hasData then .error (400, msgMissing)
            else
              match pySubscriptStr p "page" with
              | .error e => .error (500, "Server error: " ++ e)
              | .ok page_name =>
                match pySubscriptStr p "data" with
                | .error e => .error (500, "Server error: " ++ e)
                | .ok new_data =>
                  if !new_data.isArr then
                    .error (400, "data must be a list (2D array)")
                  else if !new_data.elems.isEmpty && !new_data.elems.all Json.isArr then
                    .error (400, "data must be list of lists")
                  else .ok (page_name, new_data)

/-- `POST /save_data`: validate the payload, upsert the record, commit.
A commit failure rolls the session back, leaving the store unchanged. -/
def save_data (s : Store) (payload : Option Json) (dbo : DbOutcome) : Store × Response :=
  match validatePayload payload with
  | .error (code, m) => (s, errResp code m)
  | .ok (page_name, new_data) =>
    match dbo with
    | .ok => (upsert s page_name new_data, okResp)
    | .integrityError =>
      (s, errResp 500 "Database integrity error (possible duplicate page_name)")
    | .otherError m => (s, errResp 500 ("Server error: " ++ m))

/-- The request body `{"page": page, "data": d}` of a Save call. -/
def savePayload (page : String) (d : Json) : Json :=
  Json.obj [("page", Json.str page), ("data", d)]

/-- The shape check `save_data` enforces: a list whose every element is a list. -/
def isWellFormed2D : Json → Bool
  | .arr rows => rows.all Json.isArr
  | _ => false

/-- Key membership in a JSON object. -/
def hasKey (kvs : List (String × Json)) (k : String) : Bool :=
  kvs.any fun kv => decide (kv.1 = k)

/-- First value bound to key `k` in a JSON object. -/
def lookupKey (kvs : List (String × Json)) (k : String) : Option Json :=
  (kvs.find? fun kv => decide (kv.1 = k)).map (·.2)

/-- The `page_data` invariant: at most one record per `page_name`. -/
def StoreInv (s : Store) : Prop :=
  (s.map (·.page_name)).Nodup

/-- Whether a JSON value is an object with a `status` field. -/
def hasStatusField : Json → Bool
  | .obj kvs => kvs.any fun kv => decide (kv.1 = "status")
  | _ => false

/-- The declared width of the `page_name` column: `db.String(50)`. -/
def pageNameColumnLimit : Nat := 50

/-- Modelled from the spec: the repository's second, "variant A" load handler
is not under `src/` (only variant B is). Per §3 and §4.1, the default grid
has a page-dependent row count (`commercial`→4, `industrial`→3,
`logistics`→6, else 3) and 9 columns, all cells the empty string. -/
def defaultRows (page_name : String) : Nat :=
  if page_name = "commercial" then 4
  else if page_name = "industrial" then 3
  else if page_name = "logistics" then 6
  else 3

/-- Modelled from the spec: the default grid materialized by variant A. -/
def defaultGrid (page_name : String) : Json :=
  Json.arr (List.replicate (defaultRows page_name)
    (Json.arr (List.replicate 9 (Json.str ""))))

/-- Modelled from the spec: the variant A ("auto-create") load handler, absent
from `src/`. Per §4.1: look up by exact match; if found, return the stored
value (a fresh default when it is empty); if not found, synthesize the
default grid, persist it as a new record, and return it. -/
def load_data_variantA (s : Store) (page_name : String) : Store × Response :=
  match findRecord s (Json.str page_name) with
  | some record =>
    if pyTruthy record.data then (s, ⟨200, record.data⟩)
    else (s, ⟨200, defaultGrid page_name⟩)
  | none =>
    (s ++ [⟨Json.str page_name, defaultGrid page_name⟩], ⟨200, defaultGrid page_name⟩)

/-- A well-formed grid that is Python-falsy is the empty array. -/
theorem wellFormed_not_truthy {d : Json} (h : isWellFormed2D d = true)
    (ht : pyTruthy d = false) : d = Json.arr [] := by
  cases d <;> simp [isWellFormed2D] at h
  case arr xs =>
    cases xs with
    | nil => rfl
    | cons x xs => simp [pyTruthy] at ht

/-- A `{"page": page, "data": d}` payload with well-formed `d` passes every
check of `save_data` and yields the extracted pair. -/
theorem validate_savePayload (page : String) (d : Json) (h : isWellFormed2D d = true) :
    validatePayload (some (savePayload page d)) = .ok (Json.str page, d) := by
  cases d <;> simp [isWellFormed2D] at h
  case arr rows =>
    simp [validatePayload, savePayload, pyTruthy, pyContains, pySubscriptStr,
      Json.isArr, Json.elems, List.find?]
    exact fun _ => h

/-- After an upsert, looking up the key finds the freshly written record. -/
theorem findRecord_upsert (s : Store) (k d : Json) :
    findRecord (upsert s k d) k = some ⟨k, d⟩ := by
  induction s with
  | nil => simp [upsert, findRecord, List.find?]
  | cons r rs ih =>
    by_cases h : r.page_name = k
    · simp [upsert, h, findRecord, List.find?]
    · simp only [upsert, if_neg h]
      simp only [findRecord, List.find?] at ih ⊢
      simp [h, ih]

/-- Upserting the same key/value twice equals upserting it once. -/
theorem upsert_idem (s : Store) (k d : Json) :
    upsert (upsert s k d) k d = upsert s k d := by
  induction s with
  | nil => simp [upsert]
  | cons r rs ih =>
    by_cases h : r.page_name = k
    · simp [upsert, h]
    · simp [upsert, h, ih]

/-- Every key of an upserted store is the upserted key or an old key. -/
theorem mem_map_upsert {x : Json} {s : Store} {k d : Json}
    (hx : x ∈ (upsert s k d).map (·.page_name)) :
    x = k ∨ x ∈ s.map (·.page_name) := by
  induction s with
  | nil => simpa [upsert] using hx
  | cons r rs ih =>
    by_cases h : r.page_name = k
    · simp [upsert, h] at hx
      rcases hx with hx | hx
      · exact Or.inl hx
      · exact Or.inr (by simp [hx])
    · simp [upsert, h] at hx
      rcases hx with hx | hx
      · exact Or.inr (by simp [hx])
      · rcases ih (by simpa using hx) with hx | hx
        · exact Or.inl hx
        · exact Or.inr (by simp [hx])

/-- Upserting preserves the one-record-per-page_name invariant. -/
theorem storeInv_upsert {s : Store} (k d : Json) (hs : StoreInv s) :
    StoreInv (upsert s k d) := by
  induction s with
  | nil => simp [upsert, StoreInv]
  | cons r rs ih =>
    simp only [StoreInv, List.map_cons, List.nodup_cons] at hs
    by_cases h : r.page_name = k
    · simpa [upsert, h, StoreInv] using hs
    · have hrec : StoreInv (upsert rs k d) := ih hs.2
      simp only [upsert, if_neg h, StoreInv, List.map_cons, List.nodup_cons]
      refine ⟨fun hmem => ?_, hrec⟩
      rcases mem_map_upsert hmem with hx | hx
      · exact h hx
      · exact hs.1 hx

/-- C1: for every page_name and every well-formed 2D array `data`, and any
prior store contents, Save(page_name, data) followed by Load(page_name)
returns exactly `data`, and the Save is acknowledged with the success
response. -/
theorem save_then_load_roundtrip (s : Store) (page : String) (d : Json)
    (h : isWellFormed2D d = true) :
    (load_data (save_data s (some (savePayload page d)) DbOutcome.ok).1 page).2.body = d ∧
    (save_data s (some (savePayload page d)) DbOutcome.ok).2 = okResp := by
  have hv := validate_savePayload page d h
  constructor
  · show (load_data (save_data s (some (savePayload page d)) DbOutcome.ok).1 page).2.body = d
    have hsave : (save_data s (some (savePayload page d)) DbOutcome.ok).1 =
        upsert s (Json.str page) d := by
      simp [save_data, hv]
    rw [hsave]
    unfold load_data
    rw [findRecord_upsert]
    by_cases ht : pyTruthy d
    · simp [ht]
    · rw [wellFormed_not_truthy h (by simpa using ht)]
      simp [pyTruthy]
  · simp [save_data, hv]

/-- C1 witness. -/
theorem save_then_load_roundtrip_witness :
    (load_data (save_data [] (some (savePayload ("industrial")
        (Json.arr [Json.arr [Json.str "A", Json.str "B"], Json.arr [Json.str "C"]])))
      DbOutcome.ok).1 ("industrial")).2.body =
        Json.arr [Json.arr [Json.str "A", Json.str "B"], Json.arr [Json.str "C"]] :=
  (save_then_load_roundtrip [] ("industrial")
    (Json.arr [Json.arr [Json.str "A", Json.str "B"], Json.arr [Json.str "C"]])
    (by decide)).1

/-- C2: Load looks up the stored record by exact page_name match; it returns
the stored grid when the record exists with non-empty data, the empty array
otherwise; it always answers 200 and never writes to the store. -/
theorem load_data_exact_match_spec (s : Store) (page : String) :
    (load_data s page).1 = s ∧
    (load_data s page).2.code = 200 ∧
    (∀ r, findRecord s (Json.str page) = some r → pyTruthy r.data = true →
      (load_data s page).2.body = r.data) ∧
    (∀ r, findRecord s (Json.str page) = some r → pyTruthy r.data = false →
      (load_data s page).2.body = Json.arr []) ∧
    (findRecord s (Json.str page) = none → (load_data s page).2.body = Json.arr []) := by
  unfold load_data
  cases h : findRecord s (Json.str page) with
  | none => simp [h]
  | some r =>
    by_cases ht : pyTruthy r.data <;>
      simp_all [h, ht]

/-- C2 witness. -/
theorem load_data_exact_match_spec_witness :
    (load_data [⟨Json.str "industrial", Json.arr [Json.arr [Json.str "A"]]⟩]
      ("industrial")).2.body = Json.arr [Json.arr [Json.str "A"]] :=
  (load_data_exact_match_spec
      [⟨Json.str "industrial", Json.arr [Json.arr [Json.str "A"]]⟩] ("industrial")).2.2.1
    ⟨Json.str "industrial", Json.arr [Json.arr [Json.str "A"]]⟩ rfl rfl

/-- A malformed Save body, as rejected by the handler's explicit checks:
a JSON object missing the `page` key or the `data` key, or whose `data`
value is not a list, or is a non-empty list with a non-list element. -/
def Malformed (kvs : List (String × Json)) : Prop :=
  hasKey kvs ("page") = false ∨
  hasKey kvs ("data") = false ∨
  (∃ d, lookupKey kvs ("data") = some d ∧ d.isArr = false) ∨
  (∃ rows, lookupKey kvs ("data") = some (Json.arr rows) ∧ rows ≠ [] ∧
    ∃ row ∈ rows, row.isArr = false)

/-- A key that `hasKey` finds is found by `List.find?` as well. -/
theorem find?_of_hasKey {kvs : List (String × Json)} {key : String}
    (h : hasKey kvs key = true) :
    ∃ kv, kvs.find? (fun kv => decide (kv.1 = key)) = some kv := by
  cases hf : kvs.find? (fun kv => decide (kv.1 = key)) with
  | some kv => exact ⟨kv, rfl⟩
  | none =>
    exfalso
    rw [List.find?_eq_none] at hf
    simp only [hasKey, List.any_eq_true] at h
    rcases h with ⟨kv, hmem, hkv⟩
    exact hf kv hmem hkv

/-- A looked-up value comes from a `List.find?` hit. -/
theorem find?_of_lookupKey {kvs : List (String × Json)} {key : String} {d : Json}
    (h : lookupKey kvs key = some d) :
    ∃ kv, kvs.find? (fun kv => decide (kv.1 = key)) = some kv ∧ kv.2 = d := by
  cases hf : kvs.find? (fun kv => decide (kv.1 = key)) with
  | none => simp [lookupKey, hf] at h
  | some kv =>
    refine ⟨kv, rfl, ?_⟩
    simpa [lookupKey, hf] using h

/-- A malformed payload is stopped by validation with a 400 pair. -/
theorem validate_malformed (kvs : List (String × Json)) (h : Malformed kvs) :
    ∃ m, validatePayload (some (Json.obj kvs)) = .error (400, m) := by
  by_cases he : kvs.isEmpty
  · exact ⟨msgMissing, by simp [validatePayload, pyTruthy, he]⟩
  by_cases hp : hasKey kvs ("page")
  · by_cases hd : hasKey kvs ("data")
    · rcases find?_of_hasKey hp with ⟨kvp, hkvp⟩
      have hpany : (kvs.any fun kv => decide (kv.1 = "page")) = true := hp
      have hdany : (kvs.any fun kv => decide (kv.1 = "data")) = true := hd
      rcases h with h | h | ⟨d, hl, hna⟩ | ⟨rows, hl, hne, row, hrow, hna⟩
      · rw [hp] at h; cases h
      · rw [hd] at h; cases h
      · rcases find?_of_lookupKey hl with ⟨kvd, hkvd, hval⟩
        refine ⟨"data must be a list (2D array)", ?_⟩
        simp [validatePayload, pyTruthy, pyContains, pySubscriptStr, he,
          hpany, hdany, hkvp, hkvd, hval, hna]
      · rcases find?_of_lookupKey hl with ⟨kvd, hkvd, hval⟩
        refine ⟨"data must be list of lists", ?_⟩
        have hallf : rows.all Json.isArr = false := by
          rw [List.all_eq_false]
          exact ⟨row, hrow, by simp [hna]⟩
        simp [validatePayload, pyTruthy, pyContains, pySubscriptStr, he,
          hpany, hdany, hkvp, hkvd, hval, Json.isArr, Json.elems, hne, hallf]
    · refine ⟨msgMissing, ?_⟩
      have hdany : (kvs.any fun kv => decide (kv.1 = "data")) = false :=
        Bool.of_not_eq_true hd
      simp [validatePayload, pyTruthy, pyContains, he, hdany]
  · refine ⟨msgMissing, ?_⟩
    have hpany : (kvs.any fun kv => decide (kv.1 = "page")) = false :=
      Bool.of_not_eq_true hp
    simp [validatePayload, pyTruthy, pyContains, he, hpany]

/-- C3: a Save whose object payload is missing `page` or `data`, or whose
`data` is not a list, or whose non-empty `data` contains a non-list element,
is answered with a 400 structured error and leaves every stored record
unchanged, whatever the storage layer would have done. -/
theorem save_malformed_rejected (s : Store) (dbo : DbOutcome)
    (kvs : List (String × Json)) (h : Malformed kvs) :
    (save_data s (some (Json.obj kvs)) dbo).1 = s ∧
    (save_data s (some (Json.obj kvs)) dbo).2.code = 400 ∧
    hasStatusField (save_data s (some (Json.obj kvs)) dbo).2.body = true := by
  rcases validate_malformed kvs h with ⟨m, hm⟩
  simp [save_data, hm, errResp, hasStatusField]

/-- C3 witness. -/
theorem save_malformed_rejected_witness :
    (save_data [⟨Json.str "x", Json.arr []⟩]
        (some (Json.obj [("page", Json.str "x"), ("data", Json.str "not-a-list")]))
        DbOutcome.ok).1 = [⟨Json.str "x", Json.arr []⟩] ∧
    (save_data [⟨Json.str "x", Json.arr []⟩]
        (some (Json.obj [("page", Json.str "x"), ("data", Json.str "not-a-list")]))
        DbOutcome.ok).2.code = 400 ∧
    hasStatusField (save_data [⟨Json.str "x", Json.arr []⟩]
        (some (Json.obj [("page", Json.str "x"), ("data", Json.str "not-a-list")]))
        DbOutcome.ok).2.body = true :=
  save_malformed_rejected [⟨Json.str "x", Json.arr []⟩] DbOutcome.ok
    [("page", Json.str "x"), ("data", Json.str "not-a-list")]
    (Or.inr (Or.inr (Or.inl ⟨Json.str "not-a-list", by decide, by decide⟩)))

/-- C4: when commit raises, the write is rolled back (the store is unchanged)
and the caller gets a 500 structured error: the fixed integrity message on a
uniqueness conflict, `Server error: ` plus the fault's description
otherwise. -/
theorem save_storage_fault (s : Store) (page : String) (d : Json) (m : String)
    (h : isWellFormed2D d = true) :
    save_data s (some (savePayload page d)) DbOutcome.integrityError =
      (s, errResp 500 ("Database integrity error (possible duplicate page_name)")) ∧
    save_data s (some (savePayload page d)) (DbOutcome.otherError m) =
      (s, errResp 500 ("Server error: " ++ m)) := by
  have hv := validate_savePayload page d h
  exact ⟨by simp [save_data, hv], by simp [save_data, hv]⟩

/-- C4 witness. -/
theorem save_storage_fault_witness :
    save_data [] (some (savePayload ("industrial") (Json.arr [])))
        DbOutcome.integrityError =
      ([], errResp 500 ("Database integrity error (possible duplicate page_name)")) ∧
    save_data [] (some (savePayload ("industrial") (Json.arr [])))
        (DbOutcome.otherError ("disk full")) =
      ([], errResp 500 ("Server error: disk full")) :=
  save_storage_fault [] ("industrial") (Json.arr []) ("disk full") (by decide)

/-- C5: saving the same (page_name, data) twice leaves the same stored state
after the second call as after the first. -/
theorem save_idempotent (s : Store) (page : String) (d : Json)
    (h : isWellFormed2D d = true) :
    (save_data (save_data s (some (savePayload page d)) DbOutcome.ok).1
        (some (savePayload page d)) DbOutcome.ok).1 =
      (save_data s (some (savePayload page d)) DbOutcome.ok).1 := by
  have hv := validate_savePayload page d h
  simp [save_data, hv, upsert_idem]

/-- C5 witness. -/
theorem save_idempotent_witness :
    (save_data (save_data [] (some (savePayload ("x") (Json.arr [Json.arr []])))
        DbOutcome.ok).1
        (some (savePayload ("x") (Json.arr [Json.arr []]))) DbOutcome.ok).1 =
      (save_data [] (some (savePayload ("x") (Json.arr [Json.arr []]))) DbOutcome.ok).1 :=
  save_idempotent [] ("x") (Json.arr [Json.arr []]) (by decide)

/-- C6 (spec-modelled, variant A not under `src/`): loading a never-saved
page returns the default grid: a page-name-dependent row count (commercial 4,
industrial 3, logistics 6, otherwise 3) of rows of 9 empty-string cells. -/
theorem variantA_default_grid_shape (s : Store) (page : String)
    (h : findRecord s (Json.str page) = none) :
    (load_data_variantA s page).2.code = 200 ∧
    (load_data_variantA s page).2.body =
      Json.arr (List.replicate
        (if page = "commercial" then 4
         else if page = "industrial" then 3
         else if page = "logistics" then 6
         else 3)
        (Json.arr (List.replicate 9 (Json.str "")))) := by
  unfold load_data_variantA
  rw [h]
  exact ⟨rfl, rfl⟩

/-- C6 witness. -/
theorem variantA_default_grid_shape_witness :
    (load_data_variantA [] ("unknownpage")).2.code = 200 ∧
    (load_data_variantA [] ("unknownpage")).2.body =
      Json.arr (List.replicate
        (if ("unknownpage" : String) = "commercial" then 4
         else if ("unknownpage" : String) = "industrial" then 3
         else if ("unknownpage" : String) = "logistics" then 6
         else 3)
        (Json.arr (List.replicate 9 (Json.str "")))) :=
  variantA_default_grid_shape [] ("unknownpage") rfl

/-- C7 counterexample: the Load response for a missing page is the bare JSON
array `[]`, which is not an object with a `status` field, so not every
response of the HTTP surface carries one. -/
theorem load_response_without_status :
    hasStatusField (load_data ([] : Store) ("industrial")).2.body = false ∧
    (load_data ([] : Store) ("industrial")).2.body = Json.arr [] :=
  ⟨rfl, rfl⟩

/-- C7 (amended): every Save response is a JSON object with a `status` field,
while Load answers 200 with a bare grid (or empty array) body, so absence of
a stored page on a read is never reported as an error. -/
theorem save_status_load_never_error (s : Store) (payload : Option Json)
    (dbo : DbOutcome) (page : String) :
    hasStatusField (save_data s payload dbo).2.body = true ∧
    (load_data s page).2.code = 200 := by
  constructor
  · unfold save_data
    cases hv : validatePayload payload with
    | error e =>
      cases e with
      | mk c m => simp [errResp, hasStatusField]
    | ok pd =>
      cases pd with
      | mk k d => cases dbo <;> simp [errResp, okResp, hasStatusField]
  · unfold load_data
    cases h : findRecord s (Json.str page) with
    | none => rfl
    | some r =>
      by_cases ht : pyTruthy r.data <;> simp [ht]

/-- C8: both handlers preserve the at-most-one-record-per-page_name
invariant: Save upserts (updating in place on an existing key, which keeps
the store's length), and Load never writes. -/
theorem store_invariant_preserved (s : Store) (payload : Option Json)
    (dbo : DbOutcome) (page : String) (hs : StoreInv s) :
    StoreInv (save_data s payload dbo).1 ∧ (load_data s page).1 = s := by
  constructor
  · unfold save_data
    cases hv : validatePayload payload with
    | error e =>
      cases e with
      | mk c m => simpa using hs
    | ok pd =>
      cases pd with
      | mk k d =>
        cases dbo with
        | ok => simpa using storeInv_upsert k d hs
        | integrityError => simpa using hs
        | otherError m => simpa using hs
  · unfold load_data
    cases h : findRecord s (Json.str page) with
    | none => rfl
    | some r => by_cases ht : pyTruthy r.data <;> simp [ht]

/-- C8 witness. -/
theorem store_invariant_preserved_witness :
    StoreInv (save_data [⟨Json.str "x", Json.arr []⟩]
        (some (savePayload ("x") (Json.arr [Json.arr []]))) DbOutcome.ok).1 ∧
    (load_data [⟨Json.str "x", Json.arr []⟩] ("x")).1 = [⟨Json.str "x", Json.arr []⟩] :=
  store_invariant_preserved [⟨Json.str "x", Json.arr []⟩]
    (some (savePayload ("x") (Json.arr [Json.arr []]))) DbOutcome.ok ("x")
    (by simp [StoreInv])

/-- C9: a Save whose JSON body is the array `["page", "data"]` passes the
membership check (Python `in` tests list elements), then fails when the list
is subscripted with a string key, yielding a 500 — not the 400 malformed
response — and no store write. -/
theorem save_list_payload_500 (s : Store) (dbo : DbOutcome) :
    save_data s (some (Json.arr [Json.str "page", Json.str "data"])) dbo =
      (s, errResp 500
        ("Server error: list indices must be integers or slices, not str")) ∧
    pyContains (Json.arr [Json.str "page", Json.str "data"]) ("page") = .ok true ∧
    pyContains (Json.arr [Json.str "page", Json.str "data"]) ("data") = .ok true :=
  ⟨rfl, rfl, rfl⟩

/-- C10: `page_name` is declared `db.String(50)`, but Save never checks the
length of the page value: with a 51-character page it still reaches the
store (writing on a successful commit), and a storage-layer rejection
surfaces as a 500 — never as a 400 validation error. -/
theorem save_no_page_length_check (s : Store) (page : String) (d : Json)
    (m : String) (_hlen : page.length > pageNameColumnLimit)
    (h2 : isWellFormed2D d = true) :
    save_data s (some (savePayload page d)) (DbOutcome.otherError m) =
      (s, errResp 500 ("Server error: " ++ m)) ∧
    (save_data s (some (savePayload page d)) DbOutcome.ok).1 =
      upsert s (Json.str page) d ∧
    (save_data s (some (savePayload page d)) DbOutcome.ok).2 = okResp := by
  have hv := validate_savePayload page d h2
  exact ⟨by simp [save_data, hv], by simp [save_data, hv], by simp [save_data, hv]⟩

/-- C10 witness: a 51-character page name. -/
theorem save_no_page_length_check_witness :
    save_data [] (some (savePayload
        ("aaaaaaaaaaaaaaaaaaaaaaaaaaaaaaaaaaaaaaaaaaaaaaaaaaa") (Json.arr [])))
        (DbOutcome.otherError ("value too long for type character varying(50)")) =
      ([], errResp 500
        ("Server error: value too long for type character varying(50)")) :=
  (save_no_page_length_check [] ("aaaaaaaaaaaaaaaaaaaaaaaaaaaaaaaaaaaaaaaaaaaaaaaaaaa")
    (Json.arr []) ("value too long for type character varying(50)")
    (by decide) (by decide)).1

end ConferenceGrid
